/-
Verification of the DotaSearch bot (src/bot.py) against its
natural-language specification.

The Python source is shallowly embedded: the sqlite `profiles` table is a
list of rows, the dynamically built SQL WHERE clause of
`perform_search_and_reply` becomes a boolean row predicate with SQL NULL
semantics made explicit, the per-user `context.user_data` draft becomes a
record acted on by an event function mirroring `button_handler`, and the
free-text handlers (`get_mmr`, `get_search_mmr_custom`, `get_position`)
become pure functions from input text and state to new state.
-/
import Mathlib

namespace DotaSearch

/-! ### Python-semantics helpers -/

/-- Truthiness of a Python `Optional[str]`: `None` and `""` are falsy. -/
def truthyStr : Option String → Bool
  | none => false
  | some s => !(s.toList.isEmpty)

/-- Python `s.startswith(pre)`. -/
def pyStartsWith (s pre : String) : Bool :=
  pre.toList.isPrefixOf s.toList

/-- Python whitespace for `str.strip`. -/
def isPySpace (c : Char) : Bool :=
  c = ' ' || c = '\t' || c = '\n' || c = '\r' || c = '\x0b' || c = '\x0c'

/-- Python `s.strip()`. -/
def pyStrip (s : String) : String :=
  String.mk (((s.toList.dropWhile isPySpace).reverse.dropWhile isPySpace).reverse)

/-- Truthiness of a Python `Optional[bool]`: only `True` is truthy. -/
def truthyBool : Option Bool → Bool
  | none => false
  | some b => b

/-- Truthiness of a Python `Optional[int]`: `None` and `0` are falsy. -/
def truthyInt : Option Int → Bool
  | none => false
  | some v => v != 0

/-- `1 if x else 0` applied to an `Optional[int]` (used by `upsert_profile`
for the `online` / `full_party` columns). -/
def truthy01 (x : Option Int) : Int :=
  if truthyInt x then 1 else 0

/-- Lowercasing of a single character as done by Python `str.lower` /
SQLite `LOWER`, modelled for ASCII letters and the Cyrillic range used by
the bot's cancel keyword. -/
def pyLowerChar (c : Char) : Char :=
  if 'A' ≤ c ∧ c ≤ 'Z' then Char.ofNat (c.toNat + 32)
  else if c.toNat ≥ 0x410 ∧ c.toNat ≤ 0x42F then Char.ofNat (c.toNat + 0x20)
  else if c.toNat = 0x401 then Char.ofNat 0x451
  else c

/-- Model of Python `str.lower` (and of SQLite `LOWER`, which the bot only
applies to ASCII mode names). -/
def pyLower (s : String) : String :=
  String.mk (s.toList.map pyLowerChar)

/-- Core digit scan of Python `int(str)`: digits with single underscores
allowed strictly between digits. The first character is checked by the
caller. -/
def pyDigitsCore : List Char → Bool
  | [] => true
  | c :: rest =>
    if c.isDigit then pyDigitsCore rest
    else if c = '_' then
      match rest with
      | d :: _ => d.isDigit && pyDigitsCore rest
      | [] => false
    else false

/-- A character list is a valid Python integer digit sequence: nonempty,
starts with a digit, underscores only between digits. -/
def pyValidDigits (cs : List Char) : Bool :=
  (match cs with
   | [] => false
   | c :: _ => c.isDigit) && pyDigitsCore cs

/-- Numeric value of a digit list (underscores removed by the caller). -/
def digitsVal (cs : List Char) : Nat :=
  cs.foldl (fun a c => a * 10 + (c.toNat - '0'.toNat)) 0

/-- Model of Python `int(s)` on an already-stripped ASCII string: optional
sign, then digits (underscores allowed between digits); `none` models the
`ValueError` raise. -/
def pyInt (s : String) : Option Int :=
  let parseNat : List Char → Option Nat := fun cs =>
    if pyValidDigits cs then some (digitsVal (cs.filter (fun c => c ≠ '_'))) else none
  match s.toList with
  | '-' :: rest => (parseNat rest).map (fun n => -(n : Int))
  | '+' :: rest => (parseNat rest).map (fun n => (n : Int))
  | cs => (parseNat cs).map (fun n => (n : Int))

/-! ### Data model: the `profiles` table -/

/-- One row of the sqlite `profiles` table. `online` and `full_party` are
`INTEGER` columns that may be NULL in a pre-migration database, hence
`Option Int`. -/
structure Row where
  user_id : Int
  position : Option String
  mode : Option String
  mmr : Option Int
  username : Option String
  online : Option Int
  full_party : Option Int
deriving Repr, DecidableEq

/-- The table, as the ordered list of its rows (storage order = SQL
iteration order). `user_id` is the primary key, so lookups take the first
matching row. -/
def getRow (db : List Row) (user_id : Int) : Option Row :=
  db.find? (fun r => r.user_id == user_id)

/-! ### `upsert_profile` -/

/-- The keyword arguments of `upsert_profile`; `none` means the argument
was omitted (Python default `None`). -/
structure UpsertArgs where
  position : Option String := none
  mode : Option String := none
  mmr : Option Int := none
  username : Option String := none
  online : Option Int := none
  full_party : Option Int := none
deriving Repr, DecidableEq

/-- `upsert_profile` for one user: UPDATE sets exactly the provided
columns (booleans stored as `1 if x else 0`); INSERT writes the provided
values with `online`/`full_party` defaulting to `0`. -/
def upsert_profile (user_id : Int) (cur : Option Row) (a : UpsertArgs) : Row :=
  match cur with
  | some r =>
      { r with
        position := match a.position with | some p => some p | none => r.position
        mode := match a.mode with | some m => some m | none => r.mode
        mmr := match a.mmr with | some m => some m | none => r.mmr
        username := match a.username with | some u => some u | none => r.username
        online := match a.online with | some _ => some (truthy01 a.online) | none => r.online
        full_party := match a.full_party with | some _ => some (truthy01 a.full_party) | none => r.full_party }
  | none =>
      { user_id := user_id
        position := a.position
        mode := a.mode
        mmr := a.mmr
        username := a.username
        online := some (truthy01 a.online)
        full_party := some (truthy01 a.full_party) }

/-- A sequence of upserts for the same user, applied in order. -/
def applyUpserts (user_id : Int) (cur : Option Row) : List UpsertArgs → Option Row
  | [] => cur
  | a :: rest => applyUpserts user_id (some (upsert_profile user_id cur a)) rest

/-- The most recently provided value of a field in a sequence of upserts
(later upserts take priority). -/
def lastProvided {α : Type} (f : UpsertArgs → Option α) : List UpsertArgs → Option α
  | [] => none
  | a :: rest => (lastProvided f rest).orElse (fun _ => f a)

/-! ### The filter engine: `perform_search_and_reply` -/

/-- The position part of the WHERE clause: `position = ?` when a truthy
`specific_position` was appended, else `position IS NULL OR position != ?`
when `exclude_position is True` and the requester position is truthy, else
no restriction. SQL equality with the non-NULL parameter is false on a
NULL `position`. -/
def posClause (requester_pos : Option String) (exclude_position : Option Bool)
    (specific_position : Option String) (r : Row) : Bool :=
  if truthyStr specific_position then
    r.position == specific_position
  else if exclude_position == some true && truthyStr requester_pos then
    match r.position with
    | none => true
    | some p => decide (some p ≠ requester_pos)
  else true

/-- The mode part of the WHERE clause: `LOWER(mode) = LOWER(?)` when a
truthy `search_mode` was appended; false on a NULL `mode`. -/
def modeClause (search_mode : Option String) (r : Row) : Bool :=
  if truthyStr search_mode then
    match r.mode, search_mode with
    | some m, some sm => pyLower m == pyLower sm
    | _, _ => false
  else true

/-- The full-party part of the WHERE clause: `full_party = 1` when
`only_full_party` is truthy; false on NULL. -/
def fullClause (only_full_party : Option Bool) (r : Row) : Bool :=
  if truthyBool only_full_party then r.full_party == some 1 else true

/-- The MMR part of the WHERE clause: `mmr BETWEEN max(0, R - δ) AND
R + δ` when an MMR filter was appended and the requester MMR `R` is known;
false on a NULL `mmr`. -/
def mmrClause (requester_mmr : Option Int) (mmr_filter : Option Int)
    (r : Row) : Bool :=
  match mmr_filter, requester_mmr with
  | some δ, some R =>
      (match r.mmr with
       | some v => decide (max 0 (R - δ) ≤ v ∧ v ≤ R + δ)
       | none => false)
  | _, _ => true

/-- The WHERE clause of the search query built in
`perform_search_and_reply`, as a predicate on one candidate row: the fixed
`user_id != ? AND online = 1` prefix (false on NULL `online`) followed by
the conditionally appended position, mode, full-party and MMR clauses. -/
def rowMatches (requester_id : Int) (requester_pos : Option String)
    (requester_mmr : Option Int) (search_mode : Option String)
    (mmr_filter : Option Int) (exclude_position : Option Bool)
    (specific_position : Option String) (only_full_party : Option Bool)
    (r : Row) : Bool :=
  (r.user_id != requester_id) &&
  (r.online == some 1) &&
  posClause requester_pos exclude_position specific_position r &&
  modeClause search_mode r &&
  fullClause only_full_party r &&
  mmrClause requester_mmr mmr_filter r

/-- Outcome of `perform_search_and_reply`: either the "set your MMR first"
error screen (when an MMR filter is requested but the requester has no
MMR), or the list of matching rows, capped at 30 (`LIMIT 30`). -/
inductive SearchOutcome where
  | missingMmr : SearchOutcome
  | results : List Row → SearchOutcome
deriving Repr, DecidableEq

/-- `perform_search_and_reply`: read the requester's profile, refuse if an
MMR filter is requested without a requester MMR, otherwise run the built
query over the table. -/
def perform_search (db : List Row) (requester_id : Int)
    (search_mode : Option String) (mmr_filter : Option Int)
    (exclude_position : Option Bool) (specific_position : Option String)
    (only_full_party : Option Bool) : SearchOutcome :=
  let requester_profile := getRow db requester_id
  let requester_pos := requester_profile.bind (fun p => p.position)
  let requester_mmr := requester_profile.bind (fun p => p.mmr)
  if mmr_filter.isSome ∧ requester_mmr.isNone then .missingMmr
  else
    .results ((db.filter (rowMatches requester_id requester_pos
      requester_mmr search_mode mmr_filter exclude_position
      specific_position only_full_party)).take 30)

/-! ### Fixed vocabularies and conversation-state constants -/

/-- The `POSITIONS` dict: digit key to role name. -/
def POSITIONS : List (String × String) :=
  [("1", "Carry"), ("2", "Mid"), ("3", "Offlane"),
   ("4", "Soft Support"), ("5", "Hard Support")]

/-- The `GAME_MODES` list. -/
def GAME_MODES : List String := ["Turbo", "All Pick", "Single Draft", "Ranked"]

/-- Conversation states `range(8)` and `ConversationHandler.END`. -/
def POSITION : Int := 0

def MODE : Int := 1

def MMR : Int := 2

def SEARCH_MODE : Int := 3

def SEARCH_POS_OPTION : Int := 4

def SELECT_POSITION : Int := 5

def SEARCH_FULL_OPTION : Int := 6

def SEARCH_MMR : Int := 7

def END : Int := -1

/-! ### The search draft (`context.user_data` keys) -/

/-- The per-user draft: the five `user_data` keys the search flow uses.
`search_mode` distinguishes the key being absent (`none`) from the key
holding Python `None` (`some none`, the "no mode filter" sentinel). -/
structure Draft where
  search_mode : Option (Option String) := none
  exclude_position : Option Bool := none
  specific_position : Option String := none
  only_full_party : Option Bool := none
  own_position : Option String := none
deriving Repr, DecidableEq

/-- The empty draft (fresh `user_data`). -/
def initDraft : Draft := {}

/-- The draft-touching events of `button_handler`, named after their
callback data. `selectpos` carries the already-split key
(`data.split("_", 1)[1]`); `search_party_ok` is the `search_party` branch
when the requester has a position; `search_terminal` is the draft cleanup
after `mmr_none` / `delta_<n>` / the custom-delta text entry. -/
inductive Ev where
  | search_party_ok (own_pos : String)
  | mode_chosen (m : Option String)
  | toggle_exclude_position
  | start_search
  | spec_position
  | selectpos (key : String)
  | only_full (b : Bool)
  | main_menu
  | search_terminal
deriving Repr, DecidableEq

/-- One step of the draft state machine, mirroring the `user_data`
mutations of each `button_handler` branch. -/
def applyEv (d : Draft) : Ev → Draft
  | .search_party_ok own_pos =>
      { d with own_position := some own_pos, exclude_position := none,
               specific_position := none, only_full_party := none }
  | .mode_chosen m =>
      if truthyStr d.own_position then { d with search_mode := some m } else d
  | .toggle_exclude_position =>
      let cur : Bool := match d.exclude_position with | none => true | some b => b
      { d with exclude_position := some (!cur) }
  | .start_search => d
  | .spec_position => d
  | .selectpos key =>
      match POSITIONS.lookup key with
      | some pos_name =>
          { d with specific_position := some pos_name, exclude_position := none }
      | none => d
  | .only_full b => { d with only_full_party := some b }
  | .main_menu => {}
  | .search_terminal => {}

/-- A sequence of events applied in order. -/
def applyEvs (d : Draft) (evs : List Ev) : Draft := evs.foldl applyEv d

/-! ### Keyboards (as rows of callback data) -/

/-- The Back and Menu button row. -/
def back_and_menu_row : List String := ["go_back", "main_menu"]

/-- Keyboard of the "set your position first" screen in the
`search_party` branch. -/
def missing_position_keyboard : List (List String) :=
  [["edit_position"], ["main_menu"]]

/-- Keyboard of the "set your MMR first" screen in the `delta_` branch. -/
def missing_mmr_keyboard : List (List String) :=
  [["edit_mmr"], ["main_menu"]]

/-- Callback rows of `mode_selection_keyboard` with `include_back=True`. -/
def mode_selection_rows (action_tag : String) : List (List String) :=
  (GAME_MODES.map (fun m => [action_tag ++ m])) ++
    [["mode_none"], back_and_menu_row]

/-- The exclude-own-position toggle label state in
`search_pos_option_keyboard_dynamic`: the label shows ON when the
`exclude_position` key is absent (`if exclude is None: exclude = True`). -/
def search_pos_option_exclude_shown (exclude_position : Option Bool) : Bool :=
  match exclude_position with
  | none => true
  | some b => b

/-! ### Screen text literals (copied verbatim from the source, which is
double-encoded mojibake: the program's actual string values are these
garbled sequences) -/

def MAIN_MENU_TEXT : String := "–ì–ª–∞–≤–Ω–æ–µ –º–µ–Ω—é:"

def SEARCH_MODE_DEFAULT : String := "–í—ã–±–µ—Ä–∏ —Ä–µ–∂–∏–º –∏–≥—Ä—ã –¥–ª—è –ø–æ–∏—Å–∫–∞:"

def SEARCH_POS_OPTION_DEFAULT : String := "–•–æ—Ç–∏—Ç–µ –∏—Å–∫–ª—é—á–∞—Ç—å –≤–∞—à—É –ø–æ–∑–∏—Ü–∏—é –ø—Ä–∏ –ø–æ–∏—Å–∫–µ, –∏–ª–∏ –∏—Å–∫–∞—Ç—å –æ–ø—Ä–µ–¥–µ–ª—ë–Ω–Ω—É—é –ø–æ–∑–∏—Ü–∏—é?"

def SELECT_POSITION_DEFAULT : String := "–í—ã–±–µ—Ä–∏—Ç–µ –ø–æ–∑–∏—Ü–∏—é –¥–ª—è –ø–æ–∏—Å–∫–∞:"

def SEARCH_FULL_OPTION_DEFAULT : String := "–ò—Å–∫–∞—Ç—å —Ç–æ–ª—å–∫–æ —Ç–µ—Ö, –∫—Ç–æ —Å–æ–≥–ª–∞—Å–µ–Ω –Ω–∞ Full Party?"

def SEARCH_MMR_DEFAULT : String := "–¢–µ–ø–µ—Ä—å –≤—ã–±–µ—Ä–∏—Ç–µ –æ–ø—Ü–∏–∏ –ø–æ MMR:"

def CANCEL_KEYWORD : String := "–æ—Ç–º–µ–Ω–∞"

def MMR_ERROR_TEXT : String := "‚ùå –í–≤–µ–¥–∏ –∫–æ—Ä—Ä–µ–∫—Ç–Ω–æ–µ —á–∏—Å–ª–æ MMR (–æ—Ç 0 –¥–æ 15000)!"

def DELTA_ERROR_TEXT : String := "‚ùå –í–≤–µ–¥–∏ –∫–æ—Ä—Ä–µ–∫—Ç–Ω–æ–µ –ø–æ–ª–æ–∂–∏—Ç–µ–ª—å–Ω–æ–µ —á–∏—Å–ª–æ Œî (–Ω–∞–ø—Ä–∏–º–µ—Ä: 300)."

def POSITION_ERROR_TEXT : String := "‚ùå –í–≤–µ–¥–∏ —Ü–∏—Ñ—Ä—É –æ—Ç 1 –¥–æ 5!"

/-! ### Navigation stack and last-rendered-text cache -/

/-- The `back_stack` list: `push_back` appends at the end. -/
def push_back (stack : List String) (prev : String) : List String :=
  stack ++ [prev]

/-- The `pop_back` helper: pop from the end, `none` when empty. -/
def pop_back (stack : List String) : Option String × List String :=
  match stack.getLast? with
  | none => (none, stack)
  | some v => (some v, stack.dropLast)

/-- The `last_text_<step>` entries of `user_data`, as an association list;
`store_last_text` is dict assignment. -/
def store_last_text (lt : List (String × String)) (step text : String) :
    List (String × String) :=
  (step, text) :: lt.filter (fun p => p.1 ≠ step)

/-- The `get_last_text` helper (`user_data.get`). -/
def get_last_text (lt : List (String × String)) (step : String) : Option String :=
  lt.lookup step

/-- Python `last or default` on the cached text: the default is used when
the cache is absent or empty. -/
def pyOrStr (o : Option String) (dflt : String) : String :=
  match o with
  | some t => if t.toList.isEmpty then dflt else t
  | none => dflt

/-- Result of computing the text of `render_prev`. The `PROFILE` fallback
branch (lines 335-344) calls a string as a function — implicit literal
concatenation is broken by the parenthesized conditional on line 340 — so
reaching it raises `TypeError`. -/
inductive RenderOut where
  | ok : String → RenderOut
  | typeErrorRaised : RenderOut
deriving Repr, DecidableEq

/-- The screen text produced by `render_prev` for a popped step. -/
def render_prev_text (lt : List (String × String)) : Option String → RenderOut
  | none => .ok MAIN_MENU_TEXT
  | some prev =>
    if prev = "MAIN_MENU" then .ok MAIN_MENU_TEXT
    else if prev = "PROFILE" then
      match get_last_text lt "PROFILE" with
      | some t => if t.toList.isEmpty then .typeErrorRaised else .ok t
      | none => .typeErrorRaised
    else if prev = "SEARCH_MODE" then
      .ok (pyOrStr (get_last_text lt "SEARCH_MODE") SEARCH_MODE_DEFAULT)
    else if prev = "SEARCH_POS_OPTION" then
      .ok (pyOrStr (get_last_text lt "SEARCH_POS_OPTION") SEARCH_POS_OPTION_DEFAULT)
    else if prev = "SELECT_POSITION" then
      .ok (pyOrStr (get_last_text lt "SELECT_POSITION") SELECT_POSITION_DEFAULT)
    else if prev = "SEARCH_FULL_OPTION" then
      .ok (pyOrStr (get_last_text lt "SEARCH_FULL_OPTION") SEARCH_FULL_OPTION_DEFAULT)
    else if prev = "SEARCH_MMR" then
      .ok (pyOrStr (get_last_text lt "SEARCH_MMR") SEARCH_MMR_DEFAULT)
    else .ok MAIN_MENU_TEXT

/-! ### The `search_party` branch of `button_handler` -/

/-- Result of one `button_handler` branch: the draft, the stack, the
callback rows of the rendered keyboard, and the returned conversation
state. -/
structure HandlerOut where
  draft : Draft
  stack : List String
  buttons : List (List String)
  next_state : Int
deriving Repr, DecidableEq

/-- The `search_party` branch: without a stored position it renders the
"set your position first" screen and ends; otherwise it seeds the draft,
clears the stack, pushes `MAIN_MENU` and enters `SEARCH_MODE`. -/
def search_party_branch (profile : Option Row) (d : Draft)
    (stack : List String) : HandlerOut :=
  let pos := profile.bind (fun p => p.position)
  if profile.isNone || !truthyStr pos then
    { draft := d, stack := stack, buttons := missing_position_keyboard,
      next_state := END }
  else
    let d2 : Draft :=
      { d with own_position := pos, exclude_position := none,
               specific_position := none, only_full_party := none }
    { draft := d2, stack := push_back [] "MAIN_MENU",
      buttons := mode_selection_rows "mode_", next_state := SEARCH_MODE }

/-! ### The MMR-option callbacks (`mmr_none`, `delta_`, `delta_custom`) -/

/-- Everything after the first underscore of a character list. -/
def splitOnceTailChars : List Char → List Char
  | [] => []
  | c :: rest => if c = '_' then rest else splitOnceTailChars rest

/-- Python `data.split("_", 1)[1]`: everything after the first underscore
(only used on data that passed a `startswith` test, so an underscore is
present). -/
def split_once_tail (s : String) : String :=
  String.mk (splitOnceTailChars s.toList)

/-- Outcome of `button_handler` on a callback in the `SEARCH_MMR` state.
`valueErrorRaised` models the uncaught `ValueError` of
`int(data.split("_", 1)[1])`. -/
inductive MmrActionOutcome where
  | searchNoMmr : MmrActionOutcome
  | valueErrorRaised : MmrActionOutcome
  | missingMmrPrompt : List (List String) → Int → MmrActionOutcome
  | searchWithDelta : Int → MmrActionOutcome
  | customDeltaPrompt : Int → MmrActionOutcome
  | fallThrough : MmrActionOutcome
deriving Repr, DecidableEq

/-- The ordered dispatch of `button_handler` over the MMR-option callback
data: the `mmr_none` equality test, then the `delta_` prefix test (which
parses the suffix as an int before anything else), and only then the
`delta_custom` equality test. -/
def mmr_action_dispatch (user_mmr : Option Int) (data : String) :
    MmrActionOutcome :=
  if data == "mmr_none" then .searchNoMmr
  else if pyStartsWith data "delta_" then
    match pyInt (split_once_tail data) with
    | none => .valueErrorRaised
    | some δ =>
        match user_mmr with
        | none => .missingMmrPrompt missing_mmr_keyboard END
        | some _ => .searchWithDelta δ
  else if data == "delta_custom" then .customDeltaPrompt SEARCH_MMR
  else .fallThrough

/-! ### Free-text input handlers -/

/-- The visible reply of a text handler. -/
inductive TextReply where
  | renderedPrev : Option String → TextReply
  | errorPrompt : String → TextReply
  | savedOk : TextReply
  | missingMmrPrompt : TextReply
  | searchRan : SearchOutcome → TextReply
deriving Repr, DecidableEq

/-- Result of a free-text handler: the user's stored row, the draft, the
stack, the reply and the returned conversation state. -/
structure TextHandlerOut where
  row : Option Row
  draft : Draft
  stack : List String
  reply : TextReply
  next_state : Int
deriving Repr, DecidableEq

/-- Python `txt.lower() in ("отмена", "cancel")` (the first keyword is the
mojibake literal of the source). -/
def isCancelText (txt : String) : Bool :=
  pyLower txt == CANCEL_KEYWORD || pyLower txt == "cancel"

/-- The `get_mmr` text handler (rating-edit state): cancel pops and
renders the previous screen; a non-integer or out-of-range input
re-prompts in state `MMR` without touching store or stack; a valid input
is upserted immediately. -/
def get_mmr (s : String) (user_id : Int) (username : Option String)
    (row : Option Row) (d : Draft) (stack : List String) : TextHandlerOut :=
  let txt := pyStrip s
  if isCancelText txt then
    let pr := pop_back stack
    { row := row, draft := d, stack := pr.2, reply := .renderedPrev pr.1,
      next_state := END }
  else
    match pyInt txt with
    | some mmr =>
        if mmr < 0 ∨ mmr > 15000 then
          { row := row, draft := d, stack := stack,
            reply := .errorPrompt MMR_ERROR_TEXT, next_state := MMR }
        else
          { row := some (upsert_profile user_id row
              { mmr := some mmr, username := username }),
            draft := d, stack := stack, reply := .savedOk, next_state := END }
    | none =>
        { row := row, draft := d, stack := stack,
          reply := .errorPrompt MMR_ERROR_TEXT, next_state := MMR }

/-- The `get_position` text handler (role-edit state): an input that is
not a digit key of `POSITIONS` re-prompts in state `POSITION` without
touching store or stack. -/
def get_position (s : String) (user_id : Int) (username : Option String)
    (row : Option Row) (d : Draft) (stack : List String) : TextHandlerOut :=
  let txt := pyStrip s
  if isCancelText txt then
    let pr := pop_back stack
    { row := row, draft := d, stack := pr.2, reply := .renderedPrev pr.1,
      next_state := END }
  else
    match POSITIONS.lookup txt with
    | some position_name =>
        { row := some (upsert_profile user_id row
            { position := some position_name, username := username }),
          draft := d, stack := stack, reply := .savedOk, next_state := END }
    | none =>
        { row := row, draft := d, stack := stack,
          reply := .errorPrompt POSITION_ERROR_TEXT, next_state := POSITION }

/-- The `get_search_mmr_custom` text handler (custom-delta entry): a
non-integer or non-positive input re-prompts in state `SEARCH_MMR` without
touching store, draft or stack; a valid delta runs the search with the
accumulated draft criteria, then clears the draft and the stack. -/
def get_search_mmr_custom (s : String) (user_id : Int) (db : List Row)
    (d : Draft) (stack : List String) : TextHandlerOut :=
  let txt := pyStrip s
  let row := getRow db user_id
  if isCancelText txt then
    let pr := pop_back stack
    { row := row, draft := d, stack := pr.2, reply := .renderedPrev pr.1,
      next_state := END }
  else
    match pyInt txt with
    | some δ =>
        if δ ≤ 0 then
          { row := row, draft := d, stack := stack,
            reply := .errorPrompt DELTA_ERROR_TEXT, next_state := SEARCH_MMR }
        else
          match row.bind (fun p => p.mmr) with
          | none =>
              { row := row, draft := d, stack := stack,
                reply := .missingMmrPrompt, next_state := END }
          | some _ =>
              let out := perform_search db user_id d.search_mode.join (some δ)
                d.exclude_position d.specific_position d.only_full_party
              { row := row, draft := {}, stack := [],
                reply := .searchRan out, next_state := END }
    | none =>
        { row := row, draft := d, stack := stack,
          reply := .errorPrompt DELTA_ERROR_TEXT, next_state := SEARCH_MMR }

/-! ### Concrete data for witnesses -/

/-- A requester row: user 1, Mid, Ranked, 4000 MMR, online. -/
def reqRow : Row := ⟨1, some "Mid", some "Ranked", some 4000, none, some 1, some 0⟩

/-- A candidate row: user 2, Carry, Ranked, 4100 MMR, online, full party. -/
def candRow : Row := ⟨2, some "Carry", some "Ranked", some 4100, none, some 1, some 1⟩

/-- A requester row with no MMR set: user 3, Mid, online. -/
def noMmrRow : Row := ⟨3, some "Mid", none, none, none, some 1, some 0⟩

/-- A requester row with no position set: user 4, online. -/
def noPosRow : Row := ⟨4, none, none, some 2000, none, some 1, some 0⟩

/-- A two-row table with a requester and one candidate. -/
def exampleDb : List Row := [reqRow, candRow]

/-! ## Theorems -/

/-- Every row of a `results` outcome satisfies the built WHERE clause. -/
theorem perform_search_results_mem
    {db : List Row} {rid : Int} {sm : Option String} {mf : Option Int}
    {ep : Option Bool} {sp : Option String} {ofp : Option Bool}
    {rows : List Row} {r : Row}
    (hres : perform_search db rid sm mf ep sp ofp = .results rows)
    (hmem : r ∈ rows) :
    rowMatches rid ((getRow db rid).bind (fun p => p.position))
      ((getRow db rid).bind (fun p => p.mmr)) sm mf ep sp ofp r = true := by
  rw [perform_search] at hres
  split at hres
  · exact absurd hres (by simp)
  · rw [SearchOutcome.results.injEq] at hres
    subst hres
    exact (List.mem_filter.mp (List.mem_of_mem_take hmem)).2

/-- In a `results` outcome with an MMR filter, the requester has a known
MMR. -/
theorem perform_search_results_requester_mmr
    {db : List Row} {rid : Int} {sm : Option String} {δ : Int}
    {ep : Option Bool} {sp : Option String} {ofp : Option Bool}
    {rows : List Row}
    (hres : perform_search db rid sm (some δ) ep sp ofp = .results rows) :
    ∃ R, (getRow db rid).bind (fun p => p.mmr) = some R := by
  rw [perform_search] at hres
  split at hres
  · exact absurd hres (by simp)
  · rename_i h
    rcases hR : (getRow db rid).bind (fun p => p.mmr) with _ | R
    · exact absurd ⟨rfl, by simp [hR]⟩ h
    · exact ⟨R, rfl⟩

/-- C1: every profile returned by the search is online (`online = 1`) and
is not the requester's own profile, for every requester and every
combination of criteria; rows with `online` not 1 (not visible) never
appear in any result. -/
theorem c1_results_online_and_not_self
    (db : List Row) (rid : Int) (sm : Option String) (mf : Option Int)
    (ep : Option Bool) (sp : Option String) (ofp : Option Bool)
    (rows : List Row) (r : Row)
    (hres : perform_search db rid sm mf ep sp ofp = .results rows)
    (hmem : r ∈ rows) :
    r.online = some 1 ∧ r.user_id ≠ rid := by
  have h := perform_search_results_mem hres hmem
  simp only [rowMatches, Bool.and_eq_true, bne_iff_ne, beq_iff_eq] at h
  exact ⟨h.1.1.1.1.2, h.1.1.1.1.1⟩

/-- C1 witness: a concrete search over a two-row table returns the online
stranger and the invariant holds of it. -/
theorem c1_results_online_and_not_self_witness :
    candRow.online = some 1 ∧ candRow.user_id ≠ 1 :=
  c1_results_online_and_not_self exampleDb 1 none none none none none
    [candRow] candRow (by decide) (by decide)

/-- C5: with a concrete tolerance, every returned row has a known MMR in
the inclusive interval of width δ around the requester's known MMR,
clipped below at 0; with δ = 0 the MMR is exactly the requester's; with
the no-filter sentinel the MMR clause imposes no restriction. -/
theorem c5_mmr_tolerance :
    (∀ (db : List Row) (rid : Int) (sm : Option String) (ep : Option Bool)
        (sp : Option String) (ofp : Option Bool) (rows : List Row) (r : Row)
        (δ : Int),
        perform_search db rid sm (some δ) ep sp ofp = .results rows →
        r ∈ rows →
        ∃ R v, (getRow db rid).bind (fun p => p.mmr) = some R ∧
          r.mmr = some v ∧ max 0 (R - δ) ≤ v ∧ v ≤ R + δ ∧ (δ = 0 → v = R)) ∧
    (∀ (rmmr : Option Int) (r : Row), mmrClause rmmr none r = true) := by
  constructor
  · intro db rid sm ep sp ofp rows r δ hres hmem
    obtain ⟨R, hR⟩ := perform_search_results_requester_mmr hres
    have h := perform_search_results_mem hres hmem
    simp only [rowMatches, Bool.and_eq_true] at h
    have h6 := h.2
    rw [hR] at h6
    simp only [mmrClause] at h6
    rcases hv : r.mmr with _ | v
    · rw [hv] at h6; exact absurd h6 (by simp)
    · rw [hv] at h6
      simp only [decide_eq_true_eq] at h6
      refine ⟨R, v, hR, rfl, h6.1, h6.2, ?_⟩
      rintro rfl
      have h0 : max 0 R ≤ v := by simpa using h6.1
      have h1 : v ≤ R := by simpa using h6.2
      exact le_antisymm h1 (le_trans (le_max_right 0 R) h0)
  · intro rmmr r
    rcases rmmr with _ | R <;> rfl

/-- C5 witness: searching with δ = 250 from requester 1 (MMR 4000)
returns the candidate with MMR 4100, inside [3750, 4250]. -/
theorem c5_mmr_tolerance_witness :
    ∃ R v, (getRow exampleDb 1).bind (fun p => p.mmr) = some R ∧
      candRow.mmr = some v ∧ max 0 (R - 250) ≤ v ∧ v ≤ R + 250 ∧
      ((250 : Int) = 0 → v = R) :=
  c5_mmr_tolerance.1 exampleDb 1 none none none none [candRow] candRow 250
    (by decide) (by decide)

/-- C6: with a concrete (truthy) mode, every returned row has a mode set
that equals the criteria's mode after lowercasing, and rows with no mode
are excluded; with the no-filter sentinel the mode clause imposes no
restriction. -/
theorem c6_mode_filter :
    (∀ (db : List Row) (rid : Int) (m : String) (mf : Option Int)
        (ep : Option Bool) (sp : Option String) (ofp : Option Bool)
        (rows : List Row) (r : Row),
        truthyStr (some m) = true →
        perform_search db rid (some m) mf ep sp ofp = .results rows →
        r ∈ rows →
        ∃ m2, r.mode = some m2 ∧ pyLower m2 = pyLower m) ∧
    (∀ r : Row, modeClause none r = true) := by
  constructor
  · intro db rid m mf ep sp ofp rows r hm hres hmem
    have h := perform_search_results_mem hres hmem
    simp only [rowMatches, Bool.and_eq_true] at h
    have h4 := h.1.1.2
    simp only [modeClause, hm, if_true] at h4
    rcases hmode : r.mode with _ | m2
    · rw [hmode] at h4; exact absurd h4 (by simp)
    · rw [hmode] at h4
      simp only [beq_iff_eq] at h4
      exact ⟨m2, rfl, h4⟩
  · intro r
    rfl

/-- C6 witness: searching with mode "Ranked" returns the candidate whose
stored mode is "Ranked". -/
theorem c6_mode_filter_witness :
    ∃ m2, candRow.mode = some m2 ∧ pyLower m2 = pyLower "Ranked" :=
  c6_mode_filter.1 exampleDb 1 "Ranked" none none none none [candRow]
    candRow (by decide) (by decide) (by decide)

/-- C10: with the exclude-own flag unset (key absent) or explicitly
False, and no specific position, the WHERE clause is independent of the
candidate's position (no own-position exclusion); the exclusion bites only
when the flag is exactly True; yet the positions-option screen renders the
toggle label as ON when the flag is unset. -/
theorem c10_exclude_unset_not_applied_label_on :
    (∀ (rid : Int) (rpos : Option String) (rmmr : Option Int)
        (sm : Option String) (mf : Option Int) (ofp : Option Bool)
        (r : Row) (p2 : Option String),
        rowMatches rid rpos rmmr sm mf none none ofp { r with position := p2 } =
          rowMatches rid rpos rmmr sm mf none none ofp r) ∧
    (∀ (rid : Int) (rpos : Option String) (rmmr : Option Int)
        (sm : Option String) (mf : Option Int) (ofp : Option Bool)
        (r : Row) (p2 : Option String),
        rowMatches rid rpos rmmr sm mf (some false) none ofp
            { r with position := p2 } =
          rowMatches rid rpos rmmr sm mf (some false) none ofp r) ∧
    (search_pos_option_exclude_shown none = true) ∧
    (∀ (rid : Int) (p : String) (rmmr : Option Int) (sm : Option String)
        (mf : Option Int) (ofp : Option Bool) (r : Row),
        truthyStr (some p) = true → r.position = some p →
        rowMatches rid (some p) rmmr sm mf (some true) none ofp r = false) := by
  refine ⟨?_, ?_, rfl, ?_⟩
  · intro rid rpos rmmr sm mf ofp r p2
    simp [rowMatches, posClause, modeClause, fullClause, mmrClause, truthyStr]
  · intro rid rpos rmmr sm mf ofp r p2
    simp [rowMatches, posClause, modeClause, fullClause, mmrClause, truthyStr]
  · intro rid p rmmr sm mf ofp r hp hpos
    have h0 : truthyStr (none : Option String) = false := rfl
    have hpc : posClause (some p) (some true) none r = false := by
      rw [posClause, hpos]
      simp [h0, hp]
    simp [rowMatches, hpc]

/-- C10 witness: with the flag exactly True, a candidate sharing the
requester's position "Mid" is rejected by the WHERE clause. -/
theorem c10_exclude_unset_not_applied_label_on_witness :
    rowMatches 99 (some "Mid") none none none (some true) none none
      reqRow = false :=
  c10_exclude_unset_not_applied_label_on.2.2.2 99 "Mid" none none none none
    reqRow (by decide) (by decide)

/-- C2 counterexample: from an empty draft, selecting a specific position
and then toggling the exclude-own flag twice (the toggle never clears the
specific position) reaches a draft with both a specific position and the
exclude-own flag set, refuting mutual exclusivity. -/
theorem c2_counterexample_both_set :
    ((applyEvs initDraft [.search_party_ok "Mid", .mode_chosen (some "Ranked"),
        .selectpos "1", .toggle_exclude_position,
        .toggle_exclude_position]).specific_position = some "Carry") ∧
    ((applyEvs initDraft [.search_party_ok "Mid", .mode_chosen (some "Ranked"),
        .selectpos "1", .toggle_exclude_position,
        .toggle_exclude_position]).exclude_position = some true) := by
  constructor <;> rfl

/-- C2 amended: setting a specific position always clears the exclude-own
flag, but toggling the exclude-own flag never changes a stored specific
position (the exclusivity holds in one direction only). -/
theorem c2_specific_clears_exclude_only :
    (∀ (d : Draft) (key pos_name : String),
        POSITIONS.lookup key = some pos_name →
        (applyEv d (.selectpos key)).specific_position = some pos_name ∧
        (applyEv d (.selectpos key)).exclude_position = none) ∧
    (∀ d : Draft,
        (applyEv d .toggle_exclude_position).specific_position =
          d.specific_position) := by
  constructor
  · intro d key pos_name hk
    simp [applyEv, hk]
  · intro d
    rfl

/-- C2 amended witness: selecting key "1" stores Carry and clears the
exclude-own flag in a concrete draft. -/
theorem c2_specific_clears_exclude_only_witness :
    (applyEv initDraft (.selectpos "1")).specific_position = some "Carry" ∧
    (applyEv initDraft (.selectpos "1")).exclude_position = none :=
  c2_specific_clears_exclude_only.1 initDraft "1" "Carry" (by decide)

/-- C3: pressing the custom-delta button raises an uncaught `ValueError`:
the `delta_` prefix branch of `button_handler` runs first and calls
`int("custom")`, so the dedicated `delta_custom` branch that would show
the custom-delta prompt is unreachable, whatever the requester's MMR. -/
theorem c3_delta_custom_raises (user_mmr : Option Int) :
    mmr_action_dispatch user_mmr "delta_custom" = .valueErrorRaised := by
  have h1 : ("delta_custom" == "mmr_none") = false := by decide
  have h2 : pyStartsWith "delta_custom" "delta_" = true := by decide
  have h3 : pyInt (split_once_tail "delta_custom") = none := by decide
  simp [mmr_action_dispatch, h1, h2, h3]

/-- A sequence of upserts starting from an existing row always yields a
row. -/
theorem applyUpserts_some_isSome (uid : Int) (us : List UpsertArgs) :
    ∀ r : Row, (applyUpserts uid (some r) us).isSome = true := by
  induction us with
  | nil => intro r; rfl
  | cons a rest ih => intro r; exact ih (upsert_profile uid (some r) a)

/-- Expected value of one column after a merge: the provided value
(converted), else the current row's value, else the INSERT default. -/
def mergedCol {α : Type} (conv : α → α) (dflt : Option α)
    (provided : Option α) (cur : Option Row) (g : Row → Option α) : Option α :=
  match provided with
  | some v => some (conv v)
  | none =>
      match cur with
      | some r => g r
      | none => dflt

/-- Generic column law: if one `upsert_profile` step sets a column to the
merge of the provided value with the current one, then after any sequence
the column holds the merge of the most recently provided value with the
pre-sequence one. -/
theorem applyUpserts_field {α : Type} (g : Row → Option α)
    (fa : UpsertArgs → Option α) (conv : α → α) (dflt : Option α)
    (hstep : ∀ (uid : Int) (cur : Option Row) (a : UpsertArgs),
      g (upsert_profile uid cur a) = mergedCol conv dflt (fa a) cur g) :
    ∀ (uid : Int) (us : List UpsertArgs) (cur : Option Row) (fr : Row),
      applyUpserts uid cur us = some fr →
      g fr = mergedCol conv dflt (lastProvided fa us) cur g := by
  intro uid us
  induction us with
  | nil =>
      intro cur fr h
      cases cur with
      | none => exact absurd h (by simp [applyUpserts])
      | some r =>
          simp only [applyUpserts, Option.some.injEq] at h
          subst h
          rfl
  | cons a rest ih =>
      intro cur fr h
      have h2 : applyUpserts uid (some (upsert_profile uid cur a)) rest = some fr := h
      rw [ih (some (upsert_profile uid cur a)) fr h2]
      cases hl : lastProvided fa rest with
      | some v => simp [mergedCol, lastProvided, hl, Option.orElse]
      | none => simp [mergedCol, lastProvided, hl, Option.orElse, hstep uid cur a]

/-- C4: upserts merge. On an existing row, an upsert that omits a field
leaves that field unchanged; and over any sequence of upserts to one user
(starting from an existing row or from absence), the stored row exists and
each column holds the most recently provided value for it (booleans
normalised to 0/1 by `1 if x else 0`), else the pre-sequence value, else
the INSERT default (NULL, and 0 for the two flag columns). -/
theorem c4_upsert_merges_fields :
    (∀ (uid : Int) (r : Row) (a : UpsertArgs),
        (a.position = none → (upsert_profile uid (some r) a).position = r.position) ∧
        (a.mode = none → (upsert_profile uid (some r) a).mode = r.mode) ∧
        (a.mmr = none → (upsert_profile uid (some r) a).mmr = r.mmr) ∧
        (a.username = none → (upsert_profile uid (some r) a).username = r.username) ∧
        (a.online = none → (upsert_profile uid (some r) a).online = r.online) ∧
        (a.full_party = none → (upsert_profile uid (some r) a).full_party = r.full_party)) ∧
    (∀ (uid : Int) (cur : Option Row) (us : List UpsertArgs),
        cur.isSome = true ∨ us ≠ [] →
        ∃ fr, applyUpserts uid cur us = some fr ∧
          fr.position = mergedCol (fun v => v) none
            (lastProvided (fun a => a.position) us) cur (fun r => r.position) ∧
          fr.mode = mergedCol (fun v => v) none
            (lastProvided (fun a => a.mode) us) cur (fun r => r.mode) ∧
          fr.mmr = mergedCol (fun v => v) none
            (lastProvided (fun a => a.mmr) us) cur (fun r => r.mmr) ∧
          fr.username = mergedCol (fun v => v) none
            (lastProvided (fun a => a.username) us) cur (fun r => r.username) ∧
          fr.online = mergedCol (fun v => truthy01 (some v)) (some 0)
            (lastProvided (fun a => a.online) us) cur (fun r => r.online) ∧
          fr.full_party = mergedCol (fun v => truthy01 (some v)) (some 0)
            (lastProvided (fun a => a.full_party) us) cur (fun r => r.full_party)) := by
  constructor
  · intro uid r a
    refine ⟨?_, ?_, ?_, ?_, ?_, ?_⟩ <;>
      (intro h; simp [upsert_profile, h])
  · intro uid cur us hne
    have hsome : (applyUpserts uid cur us).isSome = true := by
      cases cur with
      | some r => exact applyUpserts_some_isSome uid us r
      | none =>
          cases us with
          | nil =>
              rcases hne with h | h
              · exact absurd h (by simp)
              · exact absurd rfl h
          | cons a rest => exact applyUpserts_some_isSome uid rest _
    obtain ⟨fr, hfr⟩ := Option.isSome_iff_exists.mp hsome
    refine ⟨fr, hfr, ?_, ?_, ?_, ?_, ?_, ?_⟩
    · exact applyUpserts_field (fun r => r.position) (fun a => a.position)
        (fun v => v) none
        (by intro uid2 cur2 a; cases cur2 <;> cases ha : a.position <;>
            simp [upsert_profile, mergedCol, ha]) uid us cur fr hfr
    · exact applyUpserts_field (fun r => r.mode) (fun a => a.mode)
        (fun v => v) none
        (by intro uid2 cur2 a; cases cur2 <;> cases ha : a.mode <;>
            simp [upsert_profile, mergedCol, ha]) uid us cur fr hfr
    · exact applyUpserts_field (fun r => r.mmr) (fun a => a.mmr)
        (fun v => v) none
        (by intro uid2 cur2 a; cases cur2 <;> cases ha : a.mmr <;>
            simp [upsert_profile, mergedCol, ha]) uid us cur fr hfr
    · exact applyUpserts_field (fun r => r.username) (fun a => a.username)
        (fun v => v) none
        (by intro uid2 cur2 a; cases cur2 <;> cases ha : a.username <;>
            simp [upsert_profile, mergedCol, ha]) uid us cur fr hfr
    · exact applyUpserts_field (fun r => r.online) (fun a => a.online)
        (fun v => truthy01 (some v)) (some 0)
        (by intro uid2 cur2 a; cases cur2 <;> cases ha : a.online <;>
            simp [upsert_profile, mergedCol, ha, truthy01, truthyInt]) uid us cur fr hfr
    · exact applyUpserts_field (fun r => r.full_party) (fun a => a.full_party)
        (fun v => truthy01 (some v)) (some 0)
        (by intro uid2 cur2 a; cases cur2 <;> cases ha : a.full_party <;>
            simp [upsert_profile, mergedCol, ha, truthy01, truthyInt]) uid us cur fr hfr

/-- C4 witness: from absence, an upsert of only the MMR then an upsert of
only the username yields a row with both, the MMR surviving the second
upsert that omitted it. -/
theorem c4_upsert_merges_fields_witness :
    ∃ fr, applyUpserts 7 none
        [{ mmr := some 3000 }, { username := some "u" }] = some fr ∧
      fr.mmr = some 3000 ∧ fr.username = some "u" := by
  obtain ⟨fr, hfr, -, -, hmmr, hun, -, -⟩ :=
    c4_upsert_merges_fields.2 7 none
      [{ mmr := some 3000 }, { username := some "u" }] (by simp)
  exact ⟨fr, hfr, by rw [hmmr]; rfl, by rw [hun]; rfl⟩

/-- C7: missing prerequisites do not silently proceed. Entering the
search flow without a stored position renders a screen whose keyboard
carries the `edit_position` action, ends the conversation and leaves the
stack untouched; a fixed-delta press without a stored MMR yields the
prompt whose keyboard carries the `edit_mmr` action and ends the
conversation; and the filter engine itself refuses an MMR filter when the
requester MMR is unknown. -/
theorem c7_missing_prereq_surfaced :
    (∀ (profile : Option Row) (d : Draft) (stack : List String),
        (profile = none ∨ ∃ p, profile = some p ∧ truthyStr p.position = false) →
        (search_party_branch profile d stack).next_state = END ∧
        "edit_position" ∈ (search_party_branch profile d stack).buttons.flatten ∧
        (search_party_branch profile d stack).stack = stack) ∧
    (∀ data : String, data ∈ ["delta_100", "delta_250", "delta_500"] →
        mmr_action_dispatch none data =
          .missingMmrPrompt missing_mmr_keyboard END ∧
        "edit_mmr" ∈ missing_mmr_keyboard.flatten) ∧
    (∀ (db : List Row) (rid : Int) (sm : Option String) (δ : Int)
        (ep : Option Bool) (sp : Option String) (ofp : Option Bool),
        (getRow db rid).bind (fun p => p.mmr) = none →
        perform_search db rid sm (some δ) ep sp ofp = .missingMmr) := by
  refine ⟨?_, ?_, ?_⟩
  · intro profile d stack hp
    have hb : search_party_branch profile d stack =
        { draft := d, stack := stack, buttons := missing_position_keyboard,
          next_state := END } := by
      rcases hp with rfl | ⟨p, rfl, hp⟩
      · rfl
      · simp [search_party_branch, hp]
    rw [hb]
    refine ⟨rfl, ?_, rfl⟩
    show "edit_position" ∈ missing_position_keyboard.flatten
    decide
  · intro data hdata
    fin_cases hdata <;> exact ⟨by decide, by decide⟩
  · intro db rid sm δ ep sp ofp h
    simp [perform_search, h]

/-- C7 witness: a requester with no position gets the edit-position
screen, and a search with δ = 100 for a requester with no MMR is
refused. -/
theorem c7_missing_prereq_surfaced_witness :
    ((search_party_branch (some noPosRow) initDraft []).next_state = END ∧
      "edit_position" ∈ (search_party_branch (some noPosRow) initDraft []).buttons.flatten ∧
      (search_party_branch (some noPosRow) initDraft []).stack = ([] : List String)) ∧
    perform_search [noMmrRow] 3 none (some 100) none none none = .missingMmr :=
  ⟨c7_missing_prereq_surfaced.1 (some noPosRow) initDraft []
      (Or.inr ⟨noPosRow, rfl, by decide⟩),
    c7_missing_prereq_surfaced.2.2 [noMmrRow] 3 none 100 none none none
      (by decide)⟩

/-- C8: every free-text validation failure (non-integer or out-of-range
rating, non-integer or non-positive custom delta, bad role token)
re-renders the same state with the error prompt and leaves the stored row,
the draft and the navigation stack exactly unchanged. -/
theorem c8_validation_failure_self_loops :
    (∀ (s : String) (uid : Int) (un : Option String) (row : Option Row)
        (d : Draft) (stack : List String),
        isCancelText (pyStrip s) = false →
        (pyInt (pyStrip s) = none ∨
          ∃ v, pyInt (pyStrip s) = some v ∧ (v < 0 ∨ v > 15000)) →
        get_mmr s uid un row d stack =
          { row := row, draft := d, stack := stack,
            reply := .errorPrompt MMR_ERROR_TEXT, next_state := MMR }) ∧
    (∀ (s : String) (uid : Int) (db : List Row) (d : Draft)
        (stack : List String),
        isCancelText (pyStrip s) = false →
        (pyInt (pyStrip s) = none ∨ ∃ v, pyInt (pyStrip s) = some v ∧ v ≤ 0) →
        get_search_mmr_custom s uid db d stack =
          { row := getRow db uid, draft := d, stack := stack,
            reply := .errorPrompt DELTA_ERROR_TEXT, next_state := SEARCH_MMR }) ∧
    (∀ (s : String) (uid : Int) (un : Option String) (row : Option Row)
        (d : Draft) (stack : List String),
        isCancelText (pyStrip s) = false →
        POSITIONS.lookup (pyStrip s) = none →
        get_position s uid un row d stack =
          { row := row, draft := d, stack := stack,
            reply := .errorPrompt POSITION_ERROR_TEXT, next_state := POSITION }) := by
  refine ⟨?_, ?_, ?_⟩
  · intro s uid un row d stack hc hval
    rcases hval with h | ⟨v, h, hb⟩
    · simp [get_mmr, hc, h]
    · rcases hb with hb | hb <;> simp [get_mmr, hc, h, hb]
  · intro s uid db d stack hc hval
    rcases hval with h | ⟨v, h, hb⟩
    · simp [get_search_mmr_custom, hc, h]
    · simp [get_search_mmr_custom, hc, h, hb]
  · intro s uid un row d stack hc hval
    simp [get_position, hc, hval]

/-- C8 witness: the non-numeric input "abc" in the rating-edit state
leaves a concrete row, draft and stack unchanged and re-prompts. -/
theorem c8_validation_failure_self_loops_witness :
    get_mmr "abc" 1 none (some reqRow) initDraft ["PROFILE"] =
      { row := some reqRow, draft := initDraft, stack := ["PROFILE"],
        reply := .errorPrompt MMR_ERROR_TEXT, next_state := MMR } :=
  c8_validation_failure_self_loops.1 "abc" 1 none (some reqRow) initDraft
    ["PROFILE"] (by decide) (Or.inl (by decide))

/-- C9: pushing a screen and popping it immediately returns exactly that
screen with the stack restored, and `render_prev` then re-renders the
cached last-rendered text byte for byte, for every screen identifier the
flow pushes with a text cache. -/
theorem c9_push_pop_restores_cached_text
    (lt : List (String × String)) (stack : List String) (s t : String)
    (hs : s ∈ ["PROFILE", "SEARCH_MODE", "SEARCH_POS_OPTION",
      "SELECT_POSITION", "SEARCH_FULL_OPTION", "SEARCH_MMR"])
    (hlast : get_last_text lt s = some t)
    (ht : t.toList.isEmpty = false) :
    pop_back (push_back stack s) = (some s, stack) ∧
    render_prev_text lt (some s) = .ok t := by
  constructor
  · rw [push_back, pop_back]
    rw [List.getLast?_concat]
    simp [List.dropLast_concat]
  · have hd : t.data ≠ [] := by simpa using ht
    fin_cases hs <;> simp [render_prev_text, pyOrStr, hlast, hd]

/-- C9 witness: pushing and popping `SEARCH_MMR` with a concrete cached
text restores that exact text. -/
theorem c9_push_pop_restores_cached_text_witness :
    pop_back (push_back ["MAIN_MENU"] "SEARCH_MMR") =
      (some "SEARCH_MMR", ["MAIN_MENU"]) ∧
    render_prev_text [("SEARCH_MMR", "abc")] (some "SEARCH_MMR") = .ok "abc" :=
  c9_push_pop_restores_cached_text [("SEARCH_MMR", "abc")] ["MAIN_MENU"]
    "SEARCH_MMR" "abc" (by decide) (by decide) (by decide)

end DotaSearch
